import Mathlib

/-!
Verification of the LVGL XML component registry (`src/others/xml/lv_xml_component.c`).

The C code is shallowly embedded: linked lists (`lv_ll_t`) become Lean lists,
C strings become `String` (a null pointer is `Option.none`), and operations
that dereference a null pointer or underflow a `size_t` are made explicit as
an `Except CFault` result.  External collaborators that live outside the
repository snapshot (the expat tokenizer, the value coercers of
`lv_xml_utils.c`, the widget-processor namespace, the style registrar and the
generic parser-state helpers of `lv_xml_parser.c`) are modelled from the
specification, each marked as such in its doc comment.
-/

set_option autoImplicit false

namespace LvXmlComponent

/-- A C runtime fault made explicit: dereferencing a null pointer, or a
`size_t` subtraction that underflows (wrapping to a huge value). -/
inductive CFault
  | nullDeref
  | sizeUnderflow
deriving DecidableEq, Repr

/-- Attribute lists as delivered by the tokenizer: name/value pairs. -/
abbrev Attrs := List (String × String)

/-- Modelled from the spec: attribute lookup (an external collaborator):
given a flat list of name/value pairs, return the value for a key or
"absent" (`lv_xml_get_value_of` in `lv_xml.c`, outside `src/`). -/
def lv_xml_get_value_of (attrs : Attrs) (key : String) : Option String :=
  (attrs.find? (fun p => p.1 == key)).map Prod.snd

/-- Modelled `lv_strlcpy` into the 64-byte stack buffer used by
`process_grad_element`: at most 63 characters are copied. -/
def strlcpy64 (s : String) : String :=
  (s.toList.take 63).asString

/-- Modelled from the spec: `lv_xml_split_str` (external, `lv_xml_utils.c`):
splits at the first occurrence of the delimiter (here always a space),
returning the leading token and the remainder. -/
def split_first (s : String) : String × String :=
  let cs := s.toList
  ((cs.takeWhile (fun c => c != ' ')).asString,
   ((cs.dropWhile (fun c => c != ' ')).drop 1).asString)

/-- Colors are opaque to this module; modelled as integers. -/
abbrev lv_color_t := Int

/-- Modelled from the spec: default stop color is opaque black
(`lv_color_black()`, external). -/
def lv_color_black : lv_color_t := 0

/-- Modelled from the spec: fully opaque (`LV_OPA_COVER`, external). -/
def LV_OPA_COVER : Nat := 255

/-- Modelled from the spec: the fixed gradient-stop capacity
(`LV_GRADIENT_MAX_STOPS`, a configuration macro outside `src/`).  The spec's
stop-default example (three offset-less stops yield offsets 0, 127, 255,
i.e. `i * 255 / (capacity - 1)`) fixes the configured capacity at 3. -/
def LV_GRADIENT_MAX_STOPS : Nat := 3

/-- Modelled from the spec: the external value coercers of `lv_xml_utils.c`
(`lv_xml_to_size`, `lv_xml_atoi`, `lv_xml_to_color`, `lv_xml_to_opa`) and
the percentage-coordinate constructor `lv_pct`, abstracted as functions. -/
structure Coercers where
  to_size : String → Int
  atoi : String → Int
  to_color : String → lv_color_t
  to_opa : String → Nat
  pct : Int → Int

/-- A two-component point (`lv_point_t`, int32 coordinates; no claim
exercises coordinate overflow, so plain `Int` is used). -/
structure lv_point_t where
  x : Int
  y : Int
deriving DecidableEq, Repr

/-- Gradient direction tag (`lv_grad_dir_t`); `none` is the zero-initialized
value left in place for unrecognized tag names. -/
inductive lv_grad_dir_t
  | none
  | linear
  | radial
  | conical
  | hor
  | ver
deriving DecidableEq, Repr

/-- Gradient extend mode; only `LV_GRAD_EXTEND_PAD` is used here. -/
inductive lv_grad_extend_t
  | pad
deriving DecidableEq, Repr

/-- One gradient color stop (`lv_gradient_stop_t`). -/
structure lv_gradient_stop_t where
  color : lv_color_t
  opa : Nat
  frac : Nat
deriving DecidableEq, Repr

/-- Linear-gradient geometry (`params.linear`). -/
structure lv_grad_linear_t where
  start : lv_point_t
  end_ : lv_point_t
deriving DecidableEq, Repr

/-- Radial-gradient geometry (`params.radial`): the `end` field holds the
center point and `end_extent` the edge point, as in the source. -/
structure lv_grad_radial_t where
  end_ : lv_point_t
  end_extent : lv_point_t
  focal : lv_point_t
  focal_extent : lv_point_t
deriving DecidableEq, Repr

/-- Conical-gradient geometry (`params.conical`). -/
structure lv_grad_conical_t where
  center : lv_point_t
  start_angle : Int
  end_angle : Int
deriving DecidableEq, Repr

/-- Gradient descriptor (`lv_grad_dsc_t`).  The C `params` union is modelled
as a product of its zero-initialized variants (the struct is `lv_memzero`ed
before use, so unused variants simply stay zero).  `stops` models the
populated prefix of the fixed-capacity stop array. -/
structure lv_grad_dsc_t where
  dir : lv_grad_dir_t
  extend : lv_grad_extend_t
  stops : List lv_gradient_stop_t
  stops_count : Nat
  linear : lv_grad_linear_t
  radial : lv_grad_radial_t
  conical : lv_grad_conical_t
deriving DecidableEq, Repr

/-- The zero-initialized gradient descriptor (`lv_memzero`). -/
def grad_dsc_zero : lv_grad_dsc_t :=
  { dir := .none
    extend := .pad
    stops := []
    stops_count := 0
    linear := ⟨⟨0, 0⟩, ⟨0, 0⟩⟩
    radial := ⟨⟨0, 0⟩, ⟨0, 0⟩, ⟨0, 0⟩, ⟨0, 0⟩⟩
    conical := ⟨⟨0, 0⟩, 0, 0⟩ }

/-- Write to array slot `i` of the fixed-capacity stop array; the list
models the populated prefix, so a write one past the end appends. -/
def arr_write (l : List lv_gradient_stop_t) (i : Nat) (v : lv_gradient_stop_t) :
    List lv_gradient_stop_t :=
  if i < l.length then l.set i v else l ++ [v]

/-- A named gradient entry of the component context (`lv_xml_grad_t`). -/
structure lv_xml_grad_t where
  name : String
  grad_dsc : lv_grad_dsc_t
deriving DecidableEq, Repr

/-- A constant entry (`lv_xml_const_t`). -/
structure lv_xml_const_t where
  name : String
  value : String
deriving DecidableEq, Repr

/-- A parameter entry (`lv_xml_param_t`); `def_` models the C `def` field. -/
structure lv_xml_param_t where
  name : String
  def_ : Option String
  type : String
deriving DecidableEq, Repr

/-- A widget-processor capability reference (external namespace); modelled
by pointer identity. -/
structure lv_widget_processor_t where
  ptr : Nat
deriving DecidableEq, Repr

/-- The component context / definition (`lv_xml_component_ctx_t`).
`freed` is heap-liveness instrumentation for the shallow embedding: the C
code can `lv_free` a node without unlinking it from the registry list, and
such a node stays reachable; `freed = true` marks its memory as released
while its last-written contents remain readable (the use-after-free). -/
structure lv_xml_component_ctx_t where
  name : String
  root_widget : Option lv_widget_processor_t
  is_widget : Bool
  view_def : Option String
  const_ll : List lv_xml_const_t
  param_ll : List lv_xml_param_t
  style_ll : List Attrs
  gradient_ll : List lv_xml_grad_t
  freed : Bool
deriving DecidableEq, Repr

/-- Dispatcher section states (`lv_xml_parser_section_t`). -/
inductive lv_xml_parser_section_t
  | NONE
  | API
  | CONSTS
  | STYLES
  | GRAD
  | GRAD_STOP
  | VIEW
deriving DecidableEq, Repr

/-- The per-registration parser state (`lv_xml_parser_state_t`); only the
fields this module touches are modelled.  `section_` models the C `section`
field (`section` is reserved in Lean). -/
structure lv_xml_parser_state_t where
  section_ : lv_xml_parser_section_t
  ctx : lv_xml_component_ctx_t
deriving DecidableEq, Repr

/-- Modelled from the spec: `lv_xml_parser_state_init` (`lv_xml_parser.c`,
outside `src/`): a fresh state with empty lists, section NONE and cleared
flags. -/
def lv_xml_parser_state_init : lv_xml_parser_state_t :=
  { section_ := .NONE
    ctx :=
      { name := ""
        root_widget := Option.none
        is_widget := false
        view_def := Option.none
        const_ll := []
        param_ll := []
        style_ll := []
        gradient_ll := []
        freed := false } }

/-- Modelled from the spec: `lv_xml_parser_start_section` (`lv_xml_parser.c`,
outside `src/`).  "Encountering the opening tag whose name matches a section
name transitions into that section"; gradient-stop elements are accepted
while the section is GRADIENTS or GRADIENT_STOPS. -/
def lv_xml_parser_start_section (sec : lv_xml_parser_section_t) (name : String) :
    lv_xml_parser_section_t :=
  if name = "api" then .API
  else if name = "consts" then .CONSTS
  else if name = "styles" then .STYLES
  else if name = "gradients" then .GRAD
  else if name = "view" then .VIEW
  else if name = "stop" ∧ (sec = .GRAD ∨ sec = .GRAD_STOP) then .GRAD_STOP
  else sec

/-- Modelled from the spec: `lv_xml_parser_end_section` (`lv_xml_parser.c`,
outside `src/`): closing a section's own tag leaves that section; closing a
stop returns to the gradients section. -/
def lv_xml_parser_end_section (sec : lv_xml_parser_section_t) (name : String) :
    lv_xml_parser_section_t :=
  if name = "api" ∧ sec = .API then .NONE
  else if name = "consts" ∧ sec = .CONSTS then .NONE
  else if name = "styles" ∧ sec = .STYLES then .NONE
  else if name = "gradients" ∧ sec = .GRAD then .NONE
  else if name = "view" ∧ sec = .VIEW then .NONE
  else if name = "stop" ∧ sec = .GRAD_STOP then .GRAD
  else sec

/-- Index of the first occurrence of `needle` in `hay` (the behaviour of
`strstr`), or `none` when absent. -/
def strstr_idx (hay needle : List Char) : Option Nat :=
  (List.range (hay.length + 1)).find? (fun i => needle.isPrefixOf (hay.drop i))

/-- `extract_view_content` (source lines 484-507): substring search over the
original text from the first `"<view"` through the end of the first
`"</view>"`.  `.ok none` models the C `NULL` return for an absent marker.
When the first closing marker ends before the first opening marker, the C
`size_t` length `end - start` underflows (a huge allocation followed by an
out-of-bounds copy); that is the `sizeUnderflow` fault. -/
def extract_view_content (xml_definition : String) : Except CFault (Option String) :=
  match strstr_idx xml_definition.toList ("<view".toList) with
  | Option.none => .ok Option.none
  | Option.some s =>
    match strstr_idx xml_definition.toList ("</view>".toList) with
    | Option.none => .ok Option.none
    | Option.some e0 =>
      if ((e0 : Int) + 7) - (s : Int) < 0 then .error .sizeUnderflow
      else .ok (Option.some (((xml_definition.toList.drop s).take (e0 + 7 - s)).asString))

/-- The view substring exactly as the spec words it (the refinement-side
definition, for comparison with `extract_view_content`): "the verbatim
substring spanning" the first occurrence of the opening marker through the
end of the first occurrence of the closing marker. -/
def spec_view_extract (xml : String) : Option String :=
  match strstr_idx xml.toList ("<view".toList),
        strstr_idx xml.toList ("</view>".toList) with
  | Option.some s, Option.some e0 =>
      Option.some (((xml.toList.drop s).take (e0 + 7 - s)).asString)
  | _, _ => Option.none

/-- `process_const_element` (source lines 235-252): requires `name` and
`value`; absence of either is a logged, non-fatal skip, otherwise the pair
is appended to the context's constant list. -/
def process_const_element (state : lv_xml_parser_state_t) (attrs : Attrs) :
    lv_xml_parser_state_t :=
  match lv_xml_get_value_of attrs "name" with
  | Option.none => state
  | Option.some name =>
    match lv_xml_get_value_of attrs "value" with
    | Option.none => state
    | Option.some value =>
      { state with ctx :=
          { state.ctx with const_ll := state.ctx.const_ll ++ [⟨name, value⟩] } }

/-- `process_prop_element` (source lines 409-420): inserts a parameter entry
and duplicates the `name` attribute with no presence check — a missing
`name` sends a null pointer into `lv_strdup` (the `nullDeref` fault).
`default` is optional; `type` defaults to the literal `"compound"`. -/
def process_prop_element (state : lv_xml_parser_state_t) (attrs : Attrs) :
    Except CFault lv_xml_parser_state_t :=
  match lv_xml_get_value_of attrs "name" with
  | Option.none => .error .nullDeref
  | Option.some name =>
    let prop : lv_xml_param_t :=
      { name := name
        def_ := lv_xml_get_value_of attrs "default"
        type := (lv_xml_get_value_of attrs "type").getD "compound" }
    .ok { state with ctx :=
            { state.ctx with param_ll := state.ctx.param_ll ++ [prop] } }

/-- Parse a two-component "x y" attribute value through the 64-byte buffer:
`lv_strlcpy` + `lv_xml_split_str` + two coercions, as in the source. -/
def parse_point (f : String → Int) (s : String) : lv_point_t :=
  let p := split_first (strlcpy64 s)
  ⟨f p.1, f p.2⟩

/-- `process_grad_element` (source lines 254-383): appends a new gradient
entry tagged by the element name.  The `name` attribute is passed to
`lv_strdup` with no presence check (absence is a null dereference).  For
`linear`, `start`/`end` are copied by `lv_strlcpy` with no null guard.  For
`radial`, the `radius` branch re-copies the `edge` string (null dereference
when `edge` is absent), and the `focal_radius` branch reads
`lv_xml_atoi(center_radius)` — the value of the `radius` attribute, faulting
when `radius` is absent — and also re-copies the `edge` string. -/
def process_grad_element (C : Coercers) (state : lv_xml_parser_state_t)
    (tag_name : String) (attrs : Attrs) : Except CFault lv_xml_parser_state_t :=
  match lv_xml_get_value_of attrs "name" with
  | Option.none => .error .nullDeref
  | Option.some grad_name => do
    let dsc ←
      if tag_name = "linear" then
        match lv_xml_get_value_of attrs "start" with
        | Option.none => .error CFault.nullDeref
        | Option.some start_v =>
          match lv_xml_get_value_of attrs "end" with
          | Option.none => .error CFault.nullDeref
          | Option.some end_v =>
            .ok { grad_dsc_zero with
                    dir := .linear
                    linear := ⟨parse_point C.to_size start_v,
                               parse_point C.to_size end_v⟩ }
      else if tag_name = "radial" then do
        let center := lv_xml_get_value_of attrs "center"
        let endP : lv_point_t :=
          match center with
          | Option.some c => parse_point C.to_size c
          | Option.none => ⟨C.pct 50, C.pct 50⟩
        let center_edge := lv_xml_get_value_of attrs "edge"
        let endExt0 : lv_point_t :=
          match center_edge with
          | Option.some e => parse_point C.to_size e
          | Option.none => ⟨C.pct 100, C.pct 100⟩
        let center_radius := lv_xml_get_value_of attrs "radius"
        let endExt : lv_point_t ←
          match center_radius with
          | Option.some r =>
            match center_edge with
            | Option.none => .error CFault.nullDeref
            | Option.some _ => .ok (⟨endP.x + C.atoi r, endP.y⟩ : lv_point_t)
          | Option.none => .ok endExt0
        let focal := lv_xml_get_value_of attrs "focal_center"
        let focalP : lv_point_t :=
          match focal with
          | Option.some f => parse_point C.to_size f
          | Option.none => ⟨endP.x, endP.y⟩
        let focal_edge := lv_xml_get_value_of attrs "focal_edge"
        let focalExt0 : lv_point_t :=
          match focal_edge with
          | Option.some f => parse_point C.to_size f
          | Option.none => ⟨focalP.x, focalP.y⟩
        let focalExt : lv_point_t ←
          match lv_xml_get_value_of attrs "focal_radius" with
          | Option.some _ =>
            match center_radius with
            | Option.none => .error CFault.nullDeref
            | Option.some r =>
              match center_edge with
              | Option.none => .error CFault.nullDeref
              | Option.some _ => .ok (⟨focalP.x + C.atoi r, focalP.y⟩ : lv_point_t)
          | Option.none => .ok focalExt0
        .ok { grad_dsc_zero with
                dir := .radial
                radial := ⟨endP, endExt, focalP, focalExt⟩ }
      else if tag_name = "conical" then
        let centerP : lv_point_t :=
          match lv_xml_get_value_of attrs "center" with
          | Option.some c => parse_point C.to_size c
          | Option.none => ⟨C.pct 50, C.pct 50⟩
        let angles : Int × Int :=
          match lv_xml_get_value_of attrs "angle" with
          | Option.some a =>
            let p := split_first (strlcpy64 a)
            (C.atoi p.1, C.atoi p.2)
          | Option.none => (0, 360)
        .ok { grad_dsc_zero with
                dir := .conical
                conical := ⟨centerP, angles.1, angles.2⟩ }
      else if tag_name = "horizontal" then
        .ok { grad_dsc_zero with dir := .hor }
      else if tag_name = "vertical" then
        .ok { grad_dsc_zero with dir := .ver }
      else
        .ok grad_dsc_zero
    .ok { state with ctx :=
            { state.ctx with gradient_ll :=
                state.ctx.gradient_ll ++ [{ name := grad_name, grad_dsc := dsc }] } }

/-- `process_grad_stop_element` (source lines 386-407): reads the tail entry
of the gradient list (null dereference when the list is empty); at the fixed
capacity the stop is dropped with a warning, otherwise the stop is written
at index `stops_count` with the documented defaults and the count grows.
The `(uint8_t)` cast of the computed default offset is the `% 256`. -/
def process_grad_stop_element (C : Coercers) (maxStops : Nat)
    (state : lv_xml_parser_state_t) (attrs : Attrs) :
    Except CFault lv_xml_parser_state_t :=
  match state.ctx.gradient_ll.getLast? with
  | Option.none => .error .nullDeref
  | Option.some grad =>
    let dsc := grad.grad_dsc
    let idx := dsc.stops_count
    if idx = maxStops then .ok state
    else
      let stop : lv_gradient_stop_t :=
        { color :=
            match lv_xml_get_value_of attrs "color" with
            | Option.some c => C.to_color c
            | Option.none => lv_color_black
          opa :=
            match lv_xml_get_value_of attrs "opa" with
            | Option.some o => C.to_opa o
            | Option.none => LV_OPA_COVER
          frac :=
            match lv_xml_get_value_of attrs "offset" with
            | Option.some o => C.to_opa o
            | Option.none => (idx * 255 / (maxStops - 1)) % 256 }
      let grad' : lv_xml_grad_t :=
        { grad with grad_dsc :=
            { dsc with stops := arr_write dsc.stops idx stop, stops_count := idx + 1 } }
      .ok { state with ctx :=
              { state.ctx with gradient_ll :=
                  state.ctx.gradient_ll.dropLast ++ [grad'] } }

/-- `lv_xml_component_get_ctx` (source lines 77-85): linear scan of the
registry list, first entry whose `name` matches.  The scan cannot see the
`freed` instrumentation bit — exactly as the C traversal cannot know a node
was freed. -/
def lv_xml_component_get_ctx (registry : List lv_xml_component_ctx_t)
    (component_name : String) : Option lv_xml_component_ctx_t :=
  registry.find? (fun c => c.name == component_name)

/-- Root-widget resolution on the `view` element (source lines 429-443):
`extends` defaults to `"lv_obj"`; first the built-in widget-processor
namespace, else a registered component's already-resolved `root_widget`
field (which may itself be null), else a warning and the `"lv_obj"`
processor. -/
def resolve_root_widget (getProc : String → Option lv_widget_processor_t)
    (registry : List lv_xml_component_ctx_t) (extends_attr : Option String) :
    Option lv_widget_processor_t :=
  let extends_v := extends_attr.getD "lv_obj"
  match getProc extends_v with
  | Option.some p => Option.some p
  | Option.none =>
    match lv_xml_component_get_ctx registry extends_v with
    | Option.some extended_component => extended_component.root_widget
    | Option.none => getProc "lv_obj"

/-- Modelled from the spec: `lv_xml_style_register` (`lv_xml_style.c`,
outside `src/`).  Styles are "opaque to this core beyond name/long-name";
the entry's raw attribute set is recorded in insertion order. -/
def lv_xml_style_register (state : lv_xml_parser_state_t) (attrs : Attrs) :
    lv_xml_parser_state_t :=
  { state with ctx := { state.ctx with style_ll := state.ctx.style_ll ++ [attrs] } }

/-- Which builder the dispatcher's switch hands the current element to. -/
inductive DispatchTag
  | prop
  | cnst
  | gradElem
  | gradStop
  | styleReg
deriving DecidableEq, Repr

/-- `start_metadata_handler` (source lines 423-476).  The first component of
the result records which builder the switch dispatches the element to
(`none` when the event is skipped), the second the builder's effect on the
state.  Section openings are recognized by comparing the section before and
after `lv_xml_parser_start_section`; the `GRAD_STOP` arm has no such gate. -/
def start_metadata_handler (C : Coercers)
    (getProc : String → Option lv_widget_processor_t)
    (registry : List lv_xml_component_ctx_t)
    (state : lv_xml_parser_state_t) (name : String) (attrs : Attrs) :
    Option DispatchTag × Except CFault lv_xml_parser_state_t :=
  let old_section := state.section_
  let new_section := lv_xml_parser_start_section state.section_ name
  let st1 : lv_xml_parser_state_t := { state with section_ := new_section }
  let st2 : lv_xml_parser_state_t :=
    if name = "view" then
      { st1 with ctx :=
          { st1.ctx with root_widget :=
              resolve_root_widget getProc registry (lv_xml_get_value_of attrs "extends") } }
    else st1
  let st3 : lv_xml_parser_state_t :=
    if name = "widget" then { st2 with ctx := { st2.ctx with is_widget := true } }
    else st2
  match new_section with
  | .API =>
    if old_section ≠ new_section then (Option.none, .ok st3)
    else (Option.some .prop, process_prop_element st3 attrs)
  | .CONSTS =>
    if old_section ≠ new_section then (Option.none, .ok st3)
    else (Option.some .cnst, .ok (process_const_element st3 attrs))
  | .GRAD =>
    if old_section ≠ new_section then (Option.none, .ok st3)
    else (Option.some .gradElem, process_grad_element C st3 name attrs)
  | .GRAD_STOP =>
    (Option.some .gradStop, process_grad_stop_element C LV_GRADIENT_MAX_STOPS st3 attrs)
  | .STYLES =>
    if old_section ≠ new_section then (Option.none, .ok st3)
    else (Option.some .styleReg, .ok (lv_xml_style_register st3 attrs))
  | _ => (Option.none, .ok st3)

/-- `end_metadata_handler` (source lines 478-482). -/
def end_metadata_handler (state : lv_xml_parser_state_t) (name : String) :
    lv_xml_parser_state_t :=
  { state with section_ := lv_xml_parser_end_section state.section_ name }

/-- One element event of the streaming tokenizer. -/
inductive XmlEvent
  | start (name : String) (attrs : Attrs)
  | endEl (name : String)
deriving DecidableEq, Repr

/-- Modelled from the spec: an input document for the external expat
tokenizer.  `text` is the raw source handed to the view extractor; `events`
is the well-nested start/end event stream expat delivers to the handlers, or
`none` when expat reports a syntax error (`XML_STATUS_ERROR`). -/
structure XmlDoc where
  text : String
  events : Option (List XmlEvent)
deriving DecidableEq, Repr

/-- Drive the metadata handlers over the event stream, as `XML_Parse` does. -/
def run_metadata_handlers (C : Coercers)
    (getProc : String → Option lv_widget_processor_t)
    (registry : List lv_xml_component_ctx_t) :
    lv_xml_parser_state_t → List XmlEvent → Except CFault lv_xml_parser_state_t
  | st, [] => .ok st
  | st, .start name attrs :: rest => do
    let st' ← (start_metadata_handler C getProc registry st name attrs).2
    run_metadata_handlers C getProc registry st' rest
  | st, .endEl name :: rest =>
    run_metadata_handlers C getProc registry (end_metadata_handler st name) rest

/-- `lv_result_t`. -/
inductive lv_result_t
  | invalid
  | ok
deriving DecidableEq, Repr

/-- `lv_xml_component_register_from_data` (source lines 87-125).  A parse
error aborts with no insertion.  Otherwise a node is inserted at the head of
the registry (`lv_ll_ins_head`) and the metadata is copied in; the view body
is then extracted from the raw text and the name duplicated.  When view
extraction fails the code frees the node **without** `lv_ll_remove`, so the
freed node — name set, `view_def` null — stays linked at the head of the
list (`freed := true`). -/
def lv_xml_component_register_from_data (C : Coercers)
    (getProc : String → Option lv_widget_processor_t)
    (registry : List lv_xml_component_ctx_t)
    (name : String) (doc : XmlDoc) :
    Except CFault (lv_result_t × List lv_xml_component_ctx_t) :=
  match doc.events with
  | Option.none => .ok (.invalid, registry)
  | Option.some evs => do
    let state ← run_metadata_handlers C getProc registry
      { lv_xml_parser_state_init with ctx := { lv_xml_parser_state_init.ctx with name := name } }
      evs
    let view ← extract_view_content doc.text
    match view with
    | Option.some v =>
      .ok (.ok, { state.ctx with view_def := Option.some v, name := name, freed := false }
                  :: registry)
    | Option.none =>
      .ok (.invalid, { state.ctx with view_def := Option.none, name := name, freed := true }
                  :: registry)

/-- `lv_xml_component_unregister` (source lines 185-229): fails when the
name is not found; otherwise the found node (the first match) is unlinked
and all owned resources released. -/
def lv_xml_component_unregister (registry : List lv_xml_component_ctx_t)
    (name : String) : lv_result_t × List lv_xml_component_ctx_t :=
  match lv_xml_component_get_ctx registry name with
  | Option.none => (.invalid, registry)
  | Option.some _ => (.ok, registry.eraseP (fun c => c.name == name))

/-- A registry operation for sequences of register/unregister calls. -/
inductive RegOp
  | reg (name : String) (doc : XmlDoc)
  | unreg (name : String)
deriving DecidableEq, Repr

/-- Apply one registry operation (the registry after the call). -/
def apply_op (C : Coercers) (getProc : String → Option lv_widget_processor_t)
    (registry : List lv_xml_component_ctx_t) :
    RegOp → Except CFault (List lv_xml_component_ctx_t)
  | .reg name doc =>
    (lv_xml_component_register_from_data C getProc registry name doc).map Prod.snd
  | .unreg name => .ok (lv_xml_component_unregister registry name).2

/-- At most one registry node carries any given name. -/
def at_most_one_per_name (registry : List lv_xml_component_ctx_t) : Prop :=
  ∀ n : String, registry.countP (fun c => c.name == n) ≤ 1

/-- A simple decimal reading of a string — one concrete instantiation of the
external `lv_xml_atoi` coercer, for evaluating the embedding. -/
def model_atoi (s : String) : Int :=
  s.toList.foldl (fun a c => a * 10 + ((c.toNat : Int) - 48)) 0

/-- A concrete coercer bundle for evaluating the embedding. -/
def C0 : Coercers :=
  { to_size := model_atoi
    atoi := model_atoi
    to_color := model_atoi
    to_opa := fun s => (model_atoi s).toNat % 256
    pct := fun v => 8192 + v }

/-- A concrete widget-processor namespace: only the base type is known. -/
def gp0 : String → Option lv_widget_processor_t :=
  fun s => if s == "lv_obj" then Option.some ⟨0⟩ else Option.none

/-- A well-formed document whose parse succeeds and whose view body is the
whole text. -/
def docGood : XmlDoc :=
  { text := "<view></view>"
    events := Option.some [XmlEvent.start "view" [], XmlEvent.endEl "view"] }

/-- A document whose parse succeeds but which contains no view markers. -/
def docNoView : XmlDoc :=
  { text := "<component></component>"
    events := Option.some [XmlEvent.start "component" [], XmlEvent.endEl "component"] }

/-- The initial parser state for a registration under the name `"c"`. -/
def st_c : lv_xml_parser_state_t :=
  { lv_xml_parser_state_init with ctx := { lv_xml_parser_state_init.ctx with name := "c" } }

/-- The registry node left behind by registering `docNoView` under `"c"`:
metadata copied, name duplicated, view body null, memory freed but the node
still linked. -/
def dangling_c : lv_xml_component_ctx_t :=
  { name := "c", root_widget := Option.none, is_widget := false,
    view_def := Option.none, const_ll := [], param_ll := [], style_ll := [],
    gradient_ll := [], freed := true }

/-- The definition produced by successfully registering `docGood` under
`"c"` against `gp0`. -/
def ctxGood : lv_xml_component_ctx_t :=
  { name := "c", root_widget := Option.some ⟨0⟩, is_widget := false,
    view_def := Option.some "<view></view>", const_ll := [], param_ll := [],
    style_ll := [], gradient_ll := [], freed := false }

/-- A registered component named `"A"` whose root widget resolved to the
processor `⟨7⟩`, for exercising inheritance resolution. -/
def ctxA : lv_xml_component_ctx_t :=
  { name := "A", root_widget := Option.some ⟨7⟩, is_widget := false,
    view_def := Option.some "<view></view>", const_ll := [], param_ll := [],
    style_ll := [], gradient_ll := [], freed := false }

/-- A parser state whose context already holds one empty tail gradient. -/
def stW : lv_xml_parser_state_t :=
  { st_c with ctx :=
      { st_c.ctx with gradient_ll := [{ name := "g", grad_dsc := grad_dsc_zero }] } }

/-- C1: the claim says a registration whose parse succeeds but whose
view-body extraction fails performs no insertion and leaves nothing visible
through `lv_xml_component_get_ctx`.  The code violates this: the node
inserted by `lv_ll_ins_head` is freed without `lv_ll_remove`, so after the
error return a (freed) node carrying the component name is still linked at
the head of the registry and the lookup still finds it — the use-after-free
evaluated at the failing input `docNoView`. -/
theorem C1_failed_registration_leaves_dangling_node :
    lv_xml_component_register_from_data C0 gp0 [] "c" docNoView =
      .ok (.invalid, [dangling_c]) ∧
    (lv_xml_component_get_ctx [dangling_c] "c").isSome = true :=
  ⟨rfl, rfl⟩

/-- C2 counterexample: registering the same name `"c"` twice with no
intervening unregister leaves two registry entries named `"c"` — the code
performs no duplicate check, so the claim as stated is false. -/
theorem C2_counterexample_double_register :
    (lv_xml_component_register_from_data C0 gp0 [] "c" docGood).bind
      (fun p => (lv_xml_component_register_from_data C0 gp0 p.2 "c" docGood).map
        (fun q => q.2.countP (fun c => c.name == "c"))) = .ok 2 :=
  rfl

/-- C4: at a radial element with `radius="5"` and `focal_radius="7"` the
code sets the end extent to (center.x + 5, center.y) as the claim says, but
the focal extent to (focal.x + 5, focal.y): the `focal_radius` branch reads
`lv_xml_atoi(center_radius)`, the `radius` attribute's value, never the
`focal_radius` value — so the claimed (focal.x + 7, focal.y) is wrong. -/
theorem C4_focal_radius_branch_reads_radius_attribute :
    (process_grad_element C0 st_c "radial"
        [("name", "g"), ("center", "10 20"), ("edge", "30 40"), ("radius", "5"),
         ("focal_center", "1 2"), ("focal_radius", "7")]).map
      (fun s => s.ctx.gradient_ll.map (fun g => g.grad_dsc.radial)) =
      .ok [{ end_ := ⟨10, 20⟩, end_extent := ⟨15, 20⟩, focal := ⟨1, 2⟩,
             focal_extent := ⟨6, 2⟩ }] ∧
    (⟨6, 2⟩ : lv_point_t) ≠ ⟨1 + model_atoi "7", 2⟩ :=
  ⟨rfl, by decide⟩

/-- C6: a constant element missing `name` or `value` is skipped with the
list unchanged, as the claim says; but an API property element missing
`name` is NOT skipped — `process_prop_element` inserts an entry and passes
the null name pointer to `lv_strdup` (a null dereference), contradicting
the claimed logged-and-skipped behaviour. -/
theorem C6_const_skipped_but_prop_faults :
    process_const_element st_c [("value", "1")] = st_c ∧
    process_const_element st_c [("name", "n")] = st_c ∧
    process_prop_element st_c [("default", "1")] = .error .nullDeref :=
  ⟨rfl, rfl, rfl⟩

/-- C7 counterexample: on an input where both markers are present but the
first `"</view>"` ends before the first `"<view"` begins, the code does not
return the claimed substring: the `size_t` length `end - start` underflows
(huge allocation, out-of-bounds copy), so the claim's "for every input
string" is false. -/
theorem C7_counterexample_close_before_open :
    extract_view_content "a</view>b<view c" = .error .sizeUnderflow :=
  rfl

/-- C10: every gradient element must carry a `name` attribute even though
the spec never requires one: `process_grad_element` passes the attribute
lookup straight to string duplication with no presence check, so whenever
`name` is absent the null pointer reaches `lv_strdup` (for any tag name and
any other attributes) and the operation faults. -/
theorem C10_grad_element_requires_name (C : Coercers)
    (state : lv_xml_parser_state_t) (tag_name : String) (attrs : Attrs)
    (h : lv_xml_get_value_of attrs "name" = Option.none) :
    process_grad_element C state tag_name attrs = .error .nullDeref := by
  unfold process_grad_element
  rw [h]

/-- Witness for C10: a concrete radial element without `name` faults. -/
theorem C10_grad_element_requires_name_witness :
    lv_xml_get_value_of [("center", "0 0")] "name" = Option.none ∧
    process_grad_element C0 st_c "radial" [("center", "0 0")] = .error .nullDeref :=
  ⟨rfl, C10_grad_element_requires_name C0 st_c "radial" [("center", "0 0")] rfl⟩

/-- C3: root-widget resolution on the `view` element.  With `extends`
defaulting to `"lv_obj"` when absent: a built-in processor found for
`extends` is bound; otherwise an already-registered component's resolved
`root_widget` is bound (so B extending A after A is registered gets A's
root widget); otherwise the `"lv_obj"` base processor is bound.  The last
conjunct ties this to `start_metadata_handler` on a `view` element. -/
theorem C3_root_widget_resolution
    (getProc : String → Option lv_widget_processor_t)
    (registry : List lv_xml_component_ctx_t) :
    (resolve_root_widget getProc registry Option.none =
       resolve_root_widget getProc registry (Option.some "lv_obj")) ∧
    (∀ e p, getProc e = Option.some p →
       resolve_root_widget getProc registry (Option.some e) = Option.some p) ∧
    (∀ e c, getProc e = Option.none →
       lv_xml_component_get_ctx registry e = Option.some c →
       resolve_root_widget getProc registry (Option.some e) = c.root_widget) ∧
    (∀ e, getProc e = Option.none →
       lv_xml_component_get_ctx registry e = Option.none →
       resolve_root_widget getProc registry (Option.some e) = getProc "lv_obj") ∧
    (∀ (C : Coercers) (state : lv_xml_parser_state_t) (attrs : Attrs),
       ((start_metadata_handler C getProc registry state "view" attrs).2).map
           (fun s => s.ctx.root_widget) =
         .ok (resolve_root_widget getProc registry (lv_xml_get_value_of attrs "extends"))) := by
  refine ⟨rfl, ?_, ?_, ?_, ?_⟩
  · intro e p h
    simp [resolve_root_widget, h]
  · intro e c h1 h2
    simp [resolve_root_widget, h1, h2]
  · intro e h1 h2
    simp [resolve_root_widget, h1, h2]
  · intro C state attrs
    rfl

/-- Witness for C3: component `"B"` extending already-registered `"A"`
(no built-in processor named `"A"`) resolves to A's root widget `⟨7⟩`. -/
theorem C3_root_widget_resolution_witness :
    resolve_root_widget gp0 [ctxA] (Option.some "A") = Option.some ⟨7⟩ :=
  (C3_root_widget_resolution gp0 [ctxA]).2.2.1 "A" ctxA rfl rfl

/-- C5: gradient-stop processing against a current tail gradient with stop
count n: at the fixed capacity the descriptor is unchanged (stop dropped
with a warning, no error); below it exactly one stop is appended at index n
with color = parsed `color` or opaque black, opacity = parsed `opa` or
fully opaque, offset = parsed `offset` or n * 255 / (capacity - 1), and the
count becomes n + 1 — so the count never exceeds the capacity. -/
theorem C5_grad_stop_append_or_drop (C : Coercers) (maxStops : Nat)
    (state : lv_xml_parser_state_t) (attrs : Attrs)
    (pre : List lv_xml_grad_t) (grad : lv_xml_grad_t)
    (hmax : 2 ≤ maxStops)
    (htail : state.ctx.gradient_ll = pre ++ [grad])
    (hlen : grad.grad_dsc.stops.length = grad.grad_dsc.stops_count) :
    (grad.grad_dsc.stops_count = maxStops →
      process_grad_stop_element C maxStops state attrs = .ok state) ∧
    (grad.grad_dsc.stops_count < maxStops →
      process_grad_stop_element C maxStops state attrs =
        .ok { state with ctx := { state.ctx with gradient_ll := pre ++
          [{ grad with grad_dsc := { grad.grad_dsc with
               stops := grad.grad_dsc.stops ++
                 [{ color := match lv_xml_get_value_of attrs "color" with
                             | Option.some c => C.to_color c
                             | Option.none => lv_color_black
                    opa := match lv_xml_get_value_of attrs "opa" with
                           | Option.some o => C.to_opa o
                           | Option.none => LV_OPA_COVER
                    frac := match lv_xml_get_value_of attrs "offset" with
                            | Option.some o => C.to_opa o
                            | Option.none =>
                              grad.grad_dsc.stops_count * 255 / (maxStops - 1) }],
               stops_count := grad.grad_dsc.stops_count + 1 } }] } }) ∧
    (grad.grad_dsc.stops_count ≤ maxStops →
      ∀ st2, process_grad_stop_element C maxStops state attrs = .ok st2 →
        ∀ g2, st2.ctx.gradient_ll.getLast? = Option.some g2 →
          g2.grad_dsc.stops_count ≤ maxStops) := by
  have hget : state.ctx.gradient_ll.getLast? = Option.some grad := by
    rw [htail]; exact List.getLast?_concat pre
  have hdrop : state.ctx.gradient_ll.dropLast = pre := by
    rw [htail]; exact List.dropLast_concat
  have hfrac : grad.grad_dsc.stops_count < maxStops →
      (grad.grad_dsc.stops_count * 255 / (maxStops - 1)) % 256 =
        grad.grad_dsc.stops_count * 255 / (maxStops - 1) := by
    intro hlt
    apply Nat.mod_eq_of_lt
    have h1 : grad.grad_dsc.stops_count * 255 ≤ (maxStops - 1) * 255 :=
      Nat.mul_le_mul_right 255 (by omega)
    have h2 : grad.grad_dsc.stops_count * 255 / (maxStops - 1) ≤
        (maxStops - 1) * 255 / (maxStops - 1) := Nat.div_le_div_right h1
    have h3 : (maxStops - 1) * 255 / (maxStops - 1) = 255 :=
      Nat.mul_div_cancel_left 255 (by omega)
    omega
  refine ⟨?_, ?_, ?_⟩
  · intro heq
    unfold process_grad_stop_element
    rw [hget]
    simp [heq]
  · intro hlt
    unfold process_grad_stop_element
    rw [hget]
    have hne : ¬ grad.grad_dsc.stops_count = maxStops := by omega
    simp only [hne, if_false, ite_false]
    rw [hdrop]
    have harr : arr_write grad.grad_dsc.stops grad.grad_dsc.stops_count
        { color := match lv_xml_get_value_of attrs "color" with
                   | Option.some c => C.to_color c
                   | Option.none => lv_color_black
          opa := match lv_xml_get_value_of attrs "opa" with
                 | Option.some o => C.to_opa o
                 | Option.none => LV_OPA_COVER
          frac := match lv_xml_get_value_of attrs "offset" with
                  | Option.some o => C.to_opa o
                  | Option.none =>
                    (grad.grad_dsc.stops_count * 255 / (maxStops - 1)) % 256 } =
        grad.grad_dsc.stops ++
          [{ color := match lv_xml_get_value_of attrs "color" with
                      | Option.some c => C.to_color c
                      | Option.none => lv_color_black
             opa := match lv_xml_get_value_of attrs "opa" with
                    | Option.some o => C.to_opa o
                    | Option.none => LV_OPA_COVER
             frac := match lv_xml_get_value_of attrs "offset" with
                     | Option.some o => C.to_opa o
                     | Option.none =>
                       (grad.grad_dsc.stops_count * 255 / (maxStops - 1)) % 256 }] := by
      unfold arr_write
      rw [hlen]
      simp
    rw [harr, hfrac hlt]
  · intro hle st2 h2 g2 hg2
    by_cases heq : grad.grad_dsc.stops_count = maxStops
    · unfold process_grad_stop_element at h2
      rw [hget] at h2
      simp [heq] at h2
      subst h2
      rw [hget] at hg2
      injection hg2 with hg2
      subst hg2
      omega
    · unfold process_grad_stop_element at h2
      rw [hget] at h2
      simp only [heq, if_false, ite_false] at h2
      rw [hdrop] at h2
      injection h2 with h2
      subst h2
      simp [List.getLast?_concat] at hg2
      subst hg2
      simp
      omega

/-- Witness for C5: a first stop with no attributes appended to an empty
tail gradient gets opaque black, full opacity and default offset 0. -/
theorem C5_grad_stop_witness :
    process_grad_stop_element C0 3 stW [] =
      .ok { stW with ctx := { stW.ctx with gradient_ll :=
        [] ++ [{ name := "g"
                 grad_dsc := { grad_dsc_zero with
                               stops := grad_dsc_zero.stops ++
                                 [{ color := lv_color_black
                                    opa := LV_OPA_COVER
                                    frac := 0 }]
                               stops_count := 1 } }] } } :=
  (C5_grad_stop_append_or_drop C0 3 stW [] [] { name := "g", grad_dsc := grad_dsc_zero }
    (by decide) rfl rfl).2.1 (by decide)

/-- C9: from the initialized empty registry, a successful registration of
`name` followed by `lv_xml_component_unregister name` succeeds and returns
the registry to the observably empty state (a subsequent lookup finds
nothing), and unregistering an absent name returns a failure result with
the registry unchanged. -/
theorem C9_register_unregister_roundtrip (C : Coercers)
    (getProc : String → Option lv_widget_processor_t)
    (name : String) (doc : XmlDoc) (reg1 : List lv_xml_component_ctx_t)
    (h : lv_xml_component_register_from_data C getProc [] name doc =
      .ok (.ok, reg1)) :
    lv_xml_component_unregister reg1 name = (.ok, []) ∧
    lv_xml_component_get_ctx [] name = Option.none ∧
    (∀ (registry : List lv_xml_component_ctx_t) (n : String),
      lv_xml_component_get_ctx registry n = Option.none →
      lv_xml_component_unregister registry n = (.invalid, registry)) := by
  have hshape : ∃ ctx1 : lv_xml_component_ctx_t, ctx1.name = name ∧ reg1 = [ctx1] := by
    unfold lv_xml_component_register_from_data at h
    cases hev : doc.events with
    | none => rw [hev] at h; simp at h
    | some evs =>
      rw [hev] at h
      simp only at h
      cases hrun : run_metadata_handlers C getProc []
          { lv_xml_parser_state_init with
            ctx := { lv_xml_parser_state_init.ctx with name := name } } evs with
      | error e => rw [hrun] at h; simp [Bind.bind, Except.bind] at h
      | ok st =>
        rw [hrun] at h
        cases hex : extract_view_content doc.text with
        | error e => rw [hex] at h; simp [Bind.bind, Except.bind] at h
        | ok view =>
          rw [hex] at h
          cases view with
          | none => simp [Bind.bind, Except.bind] at h
          | some v =>
            simp [Bind.bind, Except.bind] at h
            exact ⟨_, rfl, h.symm⟩
  obtain ⟨ctx1, hname, hreg⟩ := hshape
  subst hreg
  refine ⟨?_, rfl, ?_⟩
  · unfold lv_xml_component_unregister lv_xml_component_get_ctx
    simp [List.find?, hname]
  · intro registry n hn
    unfold lv_xml_component_unregister
    rw [hn]

/-- Witness for C9: register `docGood` as `"c"` on the empty registry, then
unregister it; the registry is empty again. -/
theorem C9_register_unregister_roundtrip_witness :
    lv_xml_component_unregister [ctxGood] "c" = (.ok, []) :=
  (C9_register_unregister_roundtrip C0 gp0 "c" docGood [ctxGood] rfl).1

/-- Erasing the first entry satisfying `q` cannot increase the number of
entries satisfying `p`. -/
theorem countP_eraseP_le {α : Type} (p q : α → Bool) (l : List α) :
    (l.eraseP q).countP p ≤ l.countP p := by
  induction l with
  | nil => simp [List.eraseP]
  | cons a l ih =>
    rw [List.eraseP_cons]
    cases hqa : q a with
    | true =>
      simp only [cond_true, List.countP_cons]
      omega
    | false =>
      simp only [cond_false, List.countP_cons]
      omega

/-- If the registry lookup finds nothing under `n`, no entry is named `n`. -/
theorem countP_eq_zero_of_get_ctx_none (registry : List lv_xml_component_ctx_t)
    (n : String) (h : lv_xml_component_get_ctx registry n = Option.none) :
    registry.countP (fun c => c.name == n) = 0 := by
  rw [List.countP_eq_zero]
  intro c hc
  exact List.find?_eq_none.mp h c hc

/-- C2 (amended): the at-most-one-live-definition-per-name invariant is
preserved by every register/unregister step only under the caller
discipline that a register of `name` happens while `name` is absent from
the registry: `lv_xml_component_register_from_data` itself performs no
duplicate check, so without the discipline a second registration of the
same name leaves two entries (see the counterexample). -/
theorem C2_amended_guarded_registers_keep_names_unique (C : Coercers)
    (getProc : String → Option lv_widget_processor_t)
    (registry : List lv_xml_component_ctx_t) (op : RegOp)
    (hinv : at_most_one_per_name registry)
    (hguard : ∀ n d, op = .reg n d →
      lv_xml_component_get_ctx registry n = Option.none)
    (reg2 : List lv_xml_component_ctx_t)
    (happly : apply_op C getProc registry op = .ok reg2) :
    at_most_one_per_name reg2 := by
  cases op with
  | unreg n =>
    unfold apply_op lv_xml_component_unregister at happly
    simp only at happly
    cases hfind : lv_xml_component_get_ctx registry n with
    | none =>
      rw [hfind] at happly
      simp at happly
      subst happly
      exact hinv
    | some c =>
      rw [hfind] at happly
      simp at happly
      subst happly
      intro m
      exact le_trans (countP_eraseP_le _ _ registry) (hinv m)
  | reg n d =>
    have hzero : registry.countP (fun c => c.name == n) = 0 :=
      countP_eq_zero_of_get_ctx_none registry n (hguard n d rfl)
    unfold apply_op lv_xml_component_register_from_data at happly
    simp only at happly
    cases hev : d.events with
    | none =>
      rw [hev] at happly
      simp [Except.map] at happly
      subst happly
      exact hinv
    | some evs =>
      rw [hev] at happly
      simp only at happly
      cases hrun : run_metadata_handlers C getProc registry
          { lv_xml_parser_state_init with
            ctx := { lv_xml_parser_state_init.ctx with name := n } } evs with
      | error e =>
        rw [hrun] at happly
        simp [Bind.bind, Except.bind, Except.map] at happly
      | ok st =>
        rw [hrun] at happly
        cases hex : extract_view_content d.text with
        | error e =>
          rw [hex] at happly
          simp [Bind.bind, Except.bind, Except.map] at happly
        | ok view =>
          rw [hex] at happly
          cases view with
          | some v =>
            simp [Bind.bind, Except.bind, Except.map] at happly
            subst happly
            intro m
            rw [List.countP_cons]
            by_cases hm : n = m
            · subst hm
              simp [hzero]
            · simpa [hm] using hinv m
          | none =>
            simp [Bind.bind, Except.bind, Except.map] at happly
            subst happly
            intro m
            rw [List.countP_cons]
            by_cases hm : n = m
            · subst hm
              simp [hzero]
            · simpa [hm] using hinv m

/-- Witness for C2 (amended): registering `"c"` on the empty registry obeys
the guard and leaves at most one entry named `"c"`. -/
theorem C2_amended_guarded_registers_keep_names_unique_witness :
    [ctxGood].countP (fun c => c.name == "c") ≤ 1 :=
  C2_amended_guarded_registers_keep_names_unique C0 gp0 [] (.reg "c" docGood)
    (fun n => by simp) (fun n d h => rfl) [ctxGood] rfl "c"


/-- C7 (amended): view-body extraction returns the verbatim substring from
the first occurrence of `"<view"` through the end of the first occurrence
of `"</view>"` whenever that closing occurrence does not end before the
opening one, and returns failure (null) when either marker is absent, in
which case `lv_xml_component_register_from_data` fails as a whole; when the
first closing marker ends before the first opening marker the C length
computation underflows instead (see the counterexample). -/
theorem C7_amended_view_extraction (xml : String) :
    (strstr_idx xml.toList ("<view".toList) = Option.none →
      extract_view_content xml = .ok Option.none) ∧
    (strstr_idx xml.toList ("</view>".toList) = Option.none →
      extract_view_content xml = .ok Option.none) ∧
    (∀ s e0, strstr_idx xml.toList ("<view".toList) = Option.some s →
      strstr_idx xml.toList ("</view>".toList) = Option.some e0 →
      s ≤ e0 + 7 →
      extract_view_content xml = .ok (spec_view_extract xml) ∧
      spec_view_extract xml =
        Option.some (((xml.toList.drop s).take (e0 + 7 - s)).asString)) ∧
    (∀ (C : Coercers) (getProc : String → Option lv_widget_processor_t)
        (registry : List lv_xml_component_ctx_t) (name : String) (doc : XmlDoc)
        (evs : List XmlEvent) (st : lv_xml_parser_state_t),
      doc.events = Option.some evs →
      run_metadata_handlers C getProc registry
        { lv_xml_parser_state_init with
          ctx := { lv_xml_parser_state_init.ctx with name := name } } evs = .ok st →
      extract_view_content doc.text = .ok Option.none →
      lv_xml_component_register_from_data C getProc registry name doc =
        .ok (.invalid,
          { st.ctx with view_def := Option.none, name := name, freed := true }
            :: registry)) := by
  refine ⟨?_, ?_, ?_, ?_⟩
  · intro h
    unfold extract_view_content
    rw [h]
  · intro h
    unfold extract_view_content
    cases hopen : strstr_idx xml.toList ("<view".toList) with
    | none => rfl
    | some s => rw [h]
  · intro s e0 hopen hclose horder
    unfold extract_view_content spec_view_extract
    rw [hopen, hclose]
    have hlt : ¬ (((e0 : Int) + 7) - (s : Int) < 0) := by
      omega
    simp only
    rw [if_neg hlt]
    exact ⟨rfl, trivial⟩
  · intro C getProc registry name doc evs st hev hrun hex
    unfold lv_xml_component_register_from_data
    rw [hev]
    simp only
    rw [hrun, hex]
    rfl

/-- Witness for C7 (amended): on `"<view/></view>"` the extractor returns
the whole marker-to-marker span. -/
theorem C7_amended_view_extraction_witness :
    extract_view_content "<view/></view>" =
      .ok (spec_view_extract "<view/></view>") :=
  ((C7_amended_view_extraction "<view/></view>").2.2.1 0 7 rfl rfl (by omega)).1

/-- C8: in the dispatcher's start-element handling, for the API, CONSTS,
STYLES and GRADIENTS sections the element whose open event itself caused
the transition into that section (old section differs from new) is not
dispatched to any builder, while an element opened inside an already-open
section is dispatched to the matching builder; gradient-stop elements are
the exception: whenever the new section is GRADIENT_STOPS the stop builder
is invoked with no old-versus-new gate. -/
theorem C8_section_boundary_gate (C : Coercers)
    (getProc : String → Option lv_widget_processor_t)
    (registry : List lv_xml_component_ctx_t)
    (state : lv_xml_parser_state_t) (name : String) (attrs : Attrs) :
    ((lv_xml_parser_start_section state.section_ name = .API ∨
      lv_xml_parser_start_section state.section_ name = .CONSTS ∨
      lv_xml_parser_start_section state.section_ name = .STYLES ∨
      lv_xml_parser_start_section state.section_ name = .GRAD) →
      state.section_ ≠ lv_xml_parser_start_section state.section_ name →
      (start_metadata_handler C getProc registry state name attrs).1 =
        Option.none) ∧
    (state.section_ = lv_xml_parser_start_section state.section_ name →
      (lv_xml_parser_start_section state.section_ name = .API →
        (start_metadata_handler C getProc registry state name attrs).1 =
          Option.some .prop) ∧
      (lv_xml_parser_start_section state.section_ name = .CONSTS →
        (start_metadata_handler C getProc registry state name attrs).1 =
          Option.some .cnst) ∧
      (lv_xml_parser_start_section state.section_ name = .GRAD →
        (start_metadata_handler C getProc registry state name attrs).1 =
          Option.some .gradElem) ∧
      (lv_xml_parser_start_section state.section_ name = .STYLES →
        (start_metadata_handler C getProc registry state name attrs).1 =
          Option.some .styleReg)) ∧
    (lv_xml_parser_start_section state.section_ name = .GRAD_STOP →
      (start_metadata_handler C getProc registry state name attrs).1 =
        Option.some .gradStop) := by
  unfold start_metadata_handler
  cases hsec : lv_xml_parser_start_section state.section_ name with
  | NONE => refine ⟨by simp, ?_, by simp⟩
            intro h
            refine ⟨by simp, by simp, by simp, by simp⟩
  | API =>
    refine ⟨?_, ?_, by simp⟩
    · intro _ hne
      simp [hne]
    · intro hold
      refine ⟨?_, by simp, by simp, by simp⟩
      intro _
      simp [hold]
  | CONSTS =>
    refine ⟨?_, ?_, by simp⟩
    · intro _ hne
      simp [hne]
    · intro hold
      refine ⟨by simp, ?_, by simp, by simp⟩
      intro _
      simp [hold]
  | STYLES =>
    refine ⟨?_, ?_, by simp⟩
    · intro _ hne
      simp [hne]
    · intro hold
      refine ⟨by simp, by simp, by simp, ?_⟩
      intro _
      simp [hold]
  | GRAD =>
    refine ⟨?_, ?_, by simp⟩
    · intro _ hne
      simp [hne]
    · intro hold
      refine ⟨by simp, by simp, ?_, by simp⟩
      intro _
      simp [hold]
  | GRAD_STOP =>
    refine ⟨by simp, ?_, by simp⟩
    intro h
    refine ⟨by simp, by simp, by simp, by simp⟩
  | VIEW =>
    refine ⟨by simp, ?_, by simp⟩
    intro h
    refine ⟨by simp, by simp, by simp, by simp⟩

/-- Witness for C8: the first `stop` element inside an open gradients
section (old section GRAD, new section GRAD_STOPS) is dispatched to the
stop builder. -/
theorem C8_section_boundary_gate_witness :
    (start_metadata_handler C0 gp0 [] { stW with section_ := .GRAD } "stop" []).1 =
      Option.some .gradStop :=
  (C8_section_boundary_gate C0 gp0 [] { stW with section_ := .GRAD } "stop" []).2.2
    rfl


end LvXmlComponent
